import Mathlib

/-
Verification of the multi-provider AI gateway and scoring pipeline.

Shallow embedding of the provider factory (ai_client_factory.py), the
provider adapters (google_ai_client.py, local_ai_client.py), the
open-ended scoring path (open_ended_processor.py) and the structured
extraction cascade of generate_quiz (app.py).

Modelling conventions:
  * Python exceptions are modelled with Except String: a `.error e`
    value is an exception carrying message `e` propagating to the caller.
  * Network transports are oracles: an adapter call takes the outcome of
    the underlying HTTP/API call as an explicit argument.
  * Python numbers are modelled as rationals; `round(x, 1)` is modelled
    as round-half-to-even at one decimal (Python's round).
  * Python dicts produced by json.loads and by the scoring code are
    modelled as Json values (ordered field lists).
-/

namespace AILearn

/-! ## Python string primitives -/

/-- Python whitespace (`str.strip`, `str.split`, and the regex class \s). -/
def isPySpace (c : Char) : Bool :=
  c = ' ' || c = '\t' || c = '\n' || c = '\r' || c = '\x0b' || c = '\x0c'

/-- Python `str.strip()` on a character list. -/
def pyStripList (cs : List Char) : List Char :=
  ((cs.dropWhile isPySpace).reverse.dropWhile isPySpace).reverse

/-- Python `str.strip()`. -/
def pyStrip (s : String) : String :=
  String.mk (pyStripList s.toList)

/-- Python `str.lower()` (ASCII-faithful). -/
def pyLower (s : String) : String :=
  String.mk (s.toList.map Char.toLower)

/-- Helper for `pyWords`: accumulates the current word (reversed). -/
def pyWordsAux : List Char → List Char → List String
  | [], acc => if acc.isEmpty then [] else [String.mk acc.reverse]
  | c :: cs, acc =>
      if isPySpace c then
        if acc.isEmpty then pyWordsAux cs []
        else String.mk acc.reverse :: pyWordsAux cs []
      else pyWordsAux cs (c :: acc)

/-- Python `str.split()` with no argument: split on whitespace runs,
no empty words. -/
def pyWords (s : String) : List String :=
  pyWordsAux s.toList []

/-- `len(s.split())` in the heuristic scorer. -/
def wordCount (s : String) : ℕ :=
  (pyWords s).length

/-- Does `pat` occur at the head of `s`? -/
def strStartsWith : List Char → List Char → Bool
  | [], _ => true
  | _ :: _, [] => false
  | p :: ps, c :: cs => p = c && strStartsWith ps cs

/-- Python substring test `pat in s` on character lists. -/
def strFind (pat : List Char) : List Char → Bool
  | [] => strStartsWith pat []
  | c :: cs => strStartsWith pat (c :: cs) || strFind pat cs

/-! ## Python round(x, 1) -/

/-- Python `round` to the nearest integer, ties to even. -/
def roundHalfEven (x : ℚ) : ℤ :=
  if x - ⌊x⌋ < 1/2 then ⌊x⌋
  else if 1/2 < x - ⌊x⌋ then ⌊x⌋ + 1
  else if ⌊x⌋ % 2 = 0 then ⌊x⌋ else ⌊x⌋ + 1

/-- Python `round(x, 1)`. -/
def pyRound1 (x : ℚ) : ℚ :=
  (roundHalfEven (x * 10) : ℚ) / 10

/-! ## JSON documents and a model of json.loads -/

/-- A parsed JSON document (Python dicts keep insertion order, hence
association lists). -/
inductive Json where
  | null : Json
  | bool (b : Bool) : Json
  | num (q : ℚ) : Json
  | str (s : String) : Json
  | arr (elems : List Json) : Json
  | obj (fields : List (String × Json)) : Json

/-- Field lookup in a JSON object (Python `d[k]` / `d.get(k)` on the
first occurrence). -/
def jsonLookup (j : Json) (k : String) : Option Json :=
  match j with
  | .obj fields => (fields.find? (fun f => f.1 = k)).map (fun f => f.2)
  | _ => none

/-- JSON whitespace accepted by json.loads between tokens. -/
def isJsonWs (c : Char) : Bool :=
  c = ' ' || c = '\t' || c = '\n' || c = '\r'

/-- Value of a list of decimal digits. -/
def digitsVal (ds : List Char) : ℕ :=
  ds.foldl (fun n c => 10 * n + (c.toNat - '0'.toNat)) 0

/-- Splits a leading run of decimal digits. -/
def takeDigits (cs : List Char) : List Char × List Char :=
  match cs with
  | d :: tail =>
      if d.isDigit then
        let split := takeDigits tail
        (d :: split.1, split.2)
      else ([], cs)
  | [] => ([], [])

/-- Consumes an exact literal from the head of the input. -/
def dropLit : List Char → List Char → Option (List Char)
  | [], cs => some cs
  | l :: ls, c :: cs => if l = c then dropLit ls cs else none
  | _ :: _, [] => none

/-- Parses a JSON number (sign, integer part with no leading zeros,
optional fraction and exponent), as json.loads accepts it. A plain
unsigned integer literal is returned as a bare cast so that kernel
reduction of concrete inputs is possible; fraction and exponent use
rational arithmetic. -/
def parseNumber (cs : List Char) : Option (ℚ × List Char) :=
  let neg : Bool := match cs with
    | '-' :: _ => true
    | _ => false
  let cs1 := if neg then cs.drop 1 else cs
  let (ds, cs2) := takeDigits cs1
  match ds with
  | [] => none
  | d0 :: drest =>
    if d0 = '0' && !drest.isEmpty then none
    else
      let (fracDigits, cs3) : Option (List Char) × List Char := match cs2 with
        | '.' :: rest =>
            let (fs, rest2) := takeDigits rest
            if fs.isEmpty then (none, '.' :: rest)
            else (some fs, rest2)
        | _ => (some [], cs2)
      match fracDigits with
      | none => none
      | some fs =>
        let (expVal, cs4) : Option (Bool × ℕ) × List Char := match cs3 with
          | 'e' :: rest | 'E' :: rest =>
              let (esign, rest1) : Bool × List Char :=
                match rest with
                | c :: tail =>
                    if c = '-' then (true, tail)
                    else if c = '+' then (false, tail)
                    else (false, rest)
                | [] => (false, rest)
              let (es, rest2) := takeDigits rest1
              if es.isEmpty then (none, cs3)
              else (some (esign, digitsVal es), rest2)
          | _ => (some (false, 0), cs3)
        match expVal with
        | none => none
        | some (esign, e) =>
          let base : ℚ :=
            if fs.isEmpty then (digitsVal ds : ℚ)
            else (digitsVal ds : ℚ) + (digitsVal fs : ℚ) / ((10 : ℚ) ^ fs.length)
          let scaled : ℚ :=
            if e = 0 then base
            else if esign then base / ((10 : ℚ) ^ e) else base * ((10 : ℚ) ^ e)
          some (if neg then -scaled else scaled, cs4)

/-- Hex digit value, if any (code points 0-9, a-f, A-F). -/
def hexVal (c : Char) : Option ℕ :=
  let n := c.toNat
  if 48 ≤ n && n ≤ 57 then some (n - 48)
  else if 97 ≤ n && n ≤ 102 then some (n - 87)
  else if 65 ≤ n && n ≤ 70 then some (n - 55)
  else none

/-- Parses the body of a JSON string after the opening quote, returning
the decoded characters and the remainder after the closing quote.
json.loads (strict mode) rejects raw control characters. -/
def parseStringBody (fuel : ℕ) (cs : List Char) : Option (List Char × List Char) :=
  match fuel, cs with
  | 0, _ => none
  | _, [] => none
  | fuel + 1, c :: rest =>
    if c = '"' then some ([], rest)
    else if c = '\\' then
      match rest with
      | [] => none
      | e :: rest2 =>
        let decoded : Option (Char × List Char) :=
          if e = '"' then some ('"', rest2)
          else if e = '\\' then some ('\\', rest2)
          else if e = '/' then some ('/', rest2)
          else if e = 'b' then some ('\x08', rest2)
          else if e = 'f' then some ('\x0c', rest2)
          else if e = 'n' then some ('\n', rest2)
          else if e = 'r' then some ('\r', rest2)
          else if e = 't' then some ('\t', rest2)
          else if e = 'u' then
            match rest2 with
            | h1 :: h2 :: h3 :: h4 :: rest3 =>
              match hexVal h1, hexVal h2, hexVal h3, hexVal h4 with
              | some v1, some v2, some v3, some v4 =>
                  some (Char.ofNat (((v1 * 16 + v2) * 16 + v3) * 16 + v4), rest3)
              | _, _, _, _ => none
            | _ => none
          else none
        match decoded with
        | none => none
        | some (ch, rest3) =>
          match parseStringBody fuel rest3 with
          | some (body, rest4) => some (ch :: body, rest4)
          | none => none
    else if c.toNat < 32 then none
    else
      match parseStringBody fuel rest with
      | some (body, rest2) => some (c :: body, rest2)
      | none => none

mutual

/-- Parses one JSON value (after optional leading whitespace) and
returns the remainder, as json.loads does. -/
def parseValue : ℕ → List Char → Option (Json × List Char)
  | 0, _ => none
  | fuel + 1, cs =>
    let ws := cs.dropWhile isJsonWs
    match dropLit ("null".toList) ws with
    | some rest => some (.null, rest)
    | none =>
    match dropLit ("true".toList) ws with
    | some rest => some (.bool true, rest)
    | none =>
    match dropLit ("false".toList) ws with
    | some rest => some (.bool false, rest)
    | none =>
    match ws with
    | '"' :: rest =>
        match parseStringBody (rest.length + 1) rest with
        | some (body, rest2) => some (.str (String.mk body), rest2)
        | none => none
    | '\x7b' :: rest =>
        (match (rest.dropWhile isJsonWs) with
         | '\x7d' :: rest2 => some (.obj [], rest2)
         | _ => parseObjRest fuel [] rest)
    | '[' :: rest =>
        (match (rest.dropWhile isJsonWs) with
         | ']' :: rest2 => some (.arr [], rest2)
         | _ => parseArrRest fuel [] rest)
    | other =>
        match parseNumber other with
        | some (q, rest) => some (.num q, rest)
        | none => none

/-- Parses the members of a non-empty JSON object after `{` (or after a
comma), accumulating parsed fields. -/
def parseObjRest : ℕ → List (String × Json) → List Char → Option (Json × List Char)
  | 0, _, _ => none
  | fuel + 1, acc, cs =>
    match cs.dropWhile isJsonWs with
    | '"' :: rest =>
      (match parseStringBody (rest.length + 1) rest with
       | none => none
       | some (key, rest2) =>
         match rest2.dropWhile isJsonWs with
         | ':' :: rest3 =>
           (match parseValue fuel rest3 with
            | none => none
            | some (v, rest4) =>
              match rest4.dropWhile isJsonWs with
              | ',' :: rest5 => parseObjRest fuel (acc ++ [(String.mk key, v)]) rest5
              | '\x7d' :: rest5 => some (.obj (acc ++ [(String.mk key, v)]), rest5)
              | _ => none)
         | _ => none)
    | _ => none

/-- Parses the elements of a non-empty JSON array after `[` (or after a
comma), accumulating parsed elements. -/
def parseArrRest : ℕ → List Json → List Char → Option (Json × List Char)
  | 0, _, _ => none
  | fuel + 1, acc, cs =>
    match parseValue fuel cs with
    | none => none
    | some (v, rest) =>
      match rest.dropWhile isJsonWs with
      | ',' :: rest2 => parseArrRest fuel (acc ++ [v]) rest2
      | ']' :: rest2 => some (.arr (acc ++ [v]), rest2)
      | _ => none

end

/-- Model of Python `json.loads` on a character list: one value,
surrounded only by whitespace, or failure (a JSONDecodeError). -/
def jsonLoads (cs : List Char) : Option Json :=
  match parseValue (cs.length + 1) cs with
  | some (v, rest) => if (rest.dropWhile isJsonWs).isEmpty then some v else none
  | none => none

/-! ## The regex searches used by the extraction cascade

generate_quiz (app.py) and score_open_ended_answer (open_ended_processor.py)
use three re.search patterns with re.DOTALL:
  * three backticks, an optional "json" tag, \s*, then a greedy `{...}`
    group, \s*, three backticks;
  * the same without the optional tag;
  * a bare greedy `{...}`.
Because `\s*` can never backtrack into a backtick or a brace, the
leftmost-greedy backtracking search collapses to the deterministic
procedure modelled here: at each start position, skip the fence and the
optional tag, skip whitespace, require an opening brace, and close the
group at the LAST brace that is followed by whitespace and a fence. -/

/-- How the fence pattern treats the "json" language tag. -/
inductive TagMode where
  | requiredTag
  | optionalTag
  | noTag
deriving DecidableEq

/-- The three-backtick fence. -/
def fenceChars : List Char := ['`', '`', '`']

/-- The "json" tag characters. -/
def jsonTagChars : List Char := ['j', 's', 'o', 'n']

/-- After a closing brace, the pattern requires `\s*` then a fence;
since whitespace is never a backtick this is deterministic. -/
def closeOk (cs : List Char) : Bool :=
  strStartsWith fenceChars (cs.dropWhile isPySpace)

/-- Scans for the last `}` whose suffix satisfies `closeOk`, returning
the consumed prefix (up to and including that brace) and the suffix.
Preferring the recursive result first realises the greedy `.*`. -/
def lastCloseSplit : List Char → Option (List Char × List Char)
  | [] => none
  | c :: cs =>
    match lastCloseSplit cs with
    | some (g, rest) => some (c :: g, rest)
    | none => if c = '\x7d' && closeOk cs then some ([c], cs) else none

/-- One anchored attempt of the fenced pattern at the current position;
returns the regex group `{...}` on success. -/
def attemptFence (mode : TagMode) (cs : List Char) : Option (List Char) :=
  if strStartsWith fenceChars cs then
    let r1 := cs.drop 3
    let r2 : Option (List Char) :=
      match mode with
      | .requiredTag => if strStartsWith jsonTagChars r1 then some (r1.drop 4) else none
      | .optionalTag => some (if strStartsWith jsonTagChars r1 then r1.drop 4 else r1)
      | .noTag => some r1
    match r2 with
    | none => none
    | some r2 =>
      match r2.dropWhile isPySpace with
      | '\x7b' :: body =>
        (match lastCloseSplit body with
         | some (g, _) => some ('\x7b' :: g)
         | none => none)
      | _ => none
  else none

/-- Leftmost search of the fenced pattern (re.search): first start
position at which an anchored attempt succeeds. -/
def searchFence (mode : TagMode) : List Char → Option (List Char)
  | [] => none
  | c :: cs =>
    match attemptFence mode (c :: cs) with
    | some g => some g
    | none => searchFence mode cs

/-- Scans for the last `}` in a list, returning the consumed prefix. -/
def lastBraceSplit : List Char → Option (List Char)
  | [] => none
  | c :: cs =>
    match lastBraceSplit cs with
    | some g => some (c :: g)
    | none => if c = '\x7d' then some [c] else none

/-- re.search of the bare greedy pattern `{.*}` with DOTALL: the span
from the first `{` to the last `}` after it. -/
def braceSpan (cs : List Char) : Option (List Char) :=
  match cs.dropWhile (fun c => c != '\x7b') with
  | [] => none
  | b :: rest =>
    match lastBraceSplit rest with
    | some g => some (b :: g)
    | none => none

/-! ## generate_quiz extraction cascade (app.py) -/

/-- The value generate_quiz hands back to its caller: either the parsed
quiz document, or the dict containing only an "error" entry. -/
inductive QuizOutcome where
  | ok (doc : Json)
  | error (msg : String)

/-- The diagnostic message built when every parse fails: the stripped
response text, cut to its first 1000 characters when longer. -/
def quizParseErrorMsg (content : String) : String :=
  if 1000 < content.toList.length then
    "Failed to parse quiz data. Response content: " ++ String.mk (content.toList.take 1000) ++ "..."
  else
    "Failed to parse quiz data. Response content: " ++ content

/-- The JSON-recovery cascade of generate_quiz (app.py, after the
completion call): direct parse of the stripped content, then the fenced
pattern with an OPTIONAL json tag, then the untagged fenced pattern,
then the bare greedy brace span, then the diagnostic error dict. -/
def extractQuizData (raw : String) : QuizOutcome :=
  let content := pyStrip raw
  let cs := content.toList
  match jsonLoads cs with
  | some doc => .ok doc
  | none =>
    match (searchFence .optionalTag cs).bind jsonLoads with
    | some doc => .ok doc
    | none =>
      match (searchFence .noTag cs).bind jsonLoads with
      | some doc => .ok doc
      | none =>
        match (braceSpan cs).bind jsonLoads with
        | some doc => .ok doc
        | none => .error (quizParseErrorMsg content)

/-- generate_quiz response handling (app.py): the completion call and
everything after it run inside one try/except whose handler returns an
"error" dict wrapping the exception text. -/
def generate_quiz (completion : Except String String) : QuizOutcome :=
  match completion with
  | .ok raw => extractQuizData raw
  | .error e => .error ("Error processing response: " ++ e)

/-- The extraction strategy exactly as the claim states it: step (2)
demands a fence TAGGED "json" and step (3) an untagged fence. Written
from the claim text, to be compared with `extractQuizData`. -/
def claimExtractStrategy (raw : String) : QuizOutcome :=
  let content := pyStrip raw
  let cs := content.toList
  match jsonLoads cs with
  | some doc => .ok doc
  | none =>
    match (searchFence .requiredTag cs).bind jsonLoads with
    | some doc => .ok doc
    | none =>
      match (searchFence .noTag cs).bind jsonLoads with
      | some doc => .ok doc
      | none =>
        match (braceSpan cs).bind jsonLoads with
        | some doc => .ok doc
        | none => .error (quizParseErrorMsg content)

/-- First defined value of an ordered list of attempts. -/
def firstSome : List (Option Json) → Option Json
  | [] => none
  | o :: os =>
    match o with
    | some d => some d
    | none => firstSome os

/-- The amended strategy: identical to the claim's cascade except that
the json tag of step (2) is optional, spelled as a first-success-wins
selection over the ordered strategy list. -/
def amendedExtractStrategy (raw : String) : QuizOutcome :=
  let content := pyStrip raw
  let cs := content.toList
  let attempts : List (Option Json) :=
    [ jsonLoads cs,
      (searchFence .optionalTag cs).bind jsonLoads,
      (searchFence .noTag cs).bind jsonLoads,
      (braceSpan cs).bind jsonLoads ]
  match firstSome attempts with
  | some doc => .ok doc
  | none => .error (quizParseErrorMsg content)

/-! ## Open-ended questions and scoring (open_ended_processor.py) -/

/-- One entry of a question's marking_scheme. -/
structure Criterion where
  criterion : String
  marks : ℚ
  keywords : List String

/-- An open-ended question as consumed by score_open_ended_answer.
total_marks is an arbitrary JSON number: the code reads
question_data["total_marks"] from unvalidated model output (the
generation prompt merely asks for 2-5 whole marks). -/
structure QuestionData where
  question : String
  total_marks : ℚ
  marking_scheme : List Criterion
  model_answer : String

/-- Total keyword count across all criteria (the fallback's
total_keywords accumulator). -/
def totalKeywords (q : QuestionData) : ℕ :=
  (q.marking_scheme.map (fun c => c.keywords.length)).sum

/-- Count of rubric keywords found case-insensitively in the answer,
summed over all criteria (the fallback's keyword_score accumulator:
`keyword.lower() in user_answer.lower()`). -/
def keywordMatches (q : QuestionData) (user_answer : String) : ℕ :=
  (q.marking_scheme.map
    (fun c => (c.keywords.filter
      (fun kw => strFind (pyLower kw).toList (pyLower user_answer).toList)).length)).sum

/-- _fallback_scoring: the deterministic heuristic scorer. Mirrors the
source line by line; division by a zero total_marks, which would raise
in Python, is the rational convention 0 here (all claims assume
positive total marks). -/
def fallback_scoring (question_data : QuestionData) (user_answer : String) : Json :=
  let total_marks : ℚ := question_data.total_marks
  let word_count : ℕ := wordCount user_answer
  let base_score : ℚ := min 1 ((word_count : ℚ) / 50)
  let keyword_score : ℕ := keywordMatches question_data user_answer
  let total_keywords : ℕ := totalKeywords question_data
  let keyword_ratio : ℚ := (keyword_score : ℚ) / ((max total_keywords 1 : ℕ) : ℚ)
  let final_score : ℚ := (base_score * 0.3 + keyword_ratio * 0.7) * total_marks
  Json.obj
    [ ("total_score", .num (pyRound1 final_score)),
      ("max_score", .num total_marks),
      ("percentage", .num (pyRound1 ((final_score / total_marks) * 100))),
      ("overall_feedback", .str "Answer evaluated using basic scoring. AI detailed scoring unavailable."),
      ("criterion_scores", .arr []),
      ("strengths", .arr [.str "Answer provided"]),
      ("improvements", .arr [.str "Consider adding more specific details"]) ]

/-- The dict returned for an empty or whitespace-only answer. -/
def emptyAnswerResult (question_data : QuestionData) : Json :=
  Json.obj
    [ ("total_score", .num 0),
      ("max_score", .num question_data.total_marks),
      ("percentage", .num 0),
      ("feedback", .str "No answer provided."),
      ("criterion_scores", .arr []) ]

/-- score_open_ended_answer. The completion oracle stands for
`self.client.chat.completions.create(...).choices[0].message.content`:
`.error e` is that call raising an exception with message `e`.

Python scoping detail modelled faithfully: `import streamlit as st`
only executes inside the `if self.use_local_ai:` branch of the try
block, so in the `except` handler the local name `st` is bound only
when use_local_ai is true; otherwise `st.error(...)` itself raises
UnboundLocalError, which propagates to the caller. -/
def score_open_ended_answer (use_local_ai : Bool) (completion : Except String String)
    (question_data : QuestionData) (user_answer : String) : Except String Json :=
  if pyStrip user_answer = "" then
    .ok (emptyAnswerResult question_data)
  else
    match completion with
    | .ok content =>
      let cs := (pyStrip content).toList
      match braceSpan cs with
      | some span =>
        (match jsonLoads span with
         | some scoring_result => .ok scoring_result
         | none =>
           -- json.loads raised JSONDecodeError: caught by `except Exception`
           if use_local_ai then .ok (fallback_scoring question_data user_answer)
           else .error "UnboundLocalError: local variable st referenced before assignment")
      | none => .ok (fallback_scoring question_data user_answer)
    | .error _ =>
      if use_local_ai then .ok (fallback_scoring question_data user_answer)
      else .error "UnboundLocalError: local variable st referenced before assignment"

/-- The heuristic total score exactly as the claim words it:
round((0.3·min(1, wordCount/50) + 0.7·(matches / max(total keywords, 1)))·totalMarks, 1).
Written from the claim text, to be compared with fallback_scoring. -/
def claimFallbackScore (q : QuestionData) (a : String) : ℚ :=
  pyRound1 ((0.3 * min 1 ((wordCount a : ℚ) / 50)
    + 0.7 * ((keywordMatches q a : ℚ) / ((max (totalKeywords q) 1 : ℕ) : ℚ)))
    * q.total_marks)

/-- Every rubric keyword of every criterion occurs case-insensitively
in the answer. -/
def allKeywordsFound (q : QuestionData) (a : String) : Prop :=
  ∀ c ∈ q.marking_scheme, ∀ kw ∈ c.keywords,
    strFind (pyLower kw).toList (pyLower a).toList = true

instance (q : QuestionData) (a : String) : Decidable (allKeywordsFound q a) := by
  unfold allKeywordsFound; infer_instance

/-! ## Provider adapters (google_ai_client.py, local_ai_client.py) -/

/-- GoogleAIConfig.CHAT_MODEL. -/
def googleChatModel : String := "gemini-1.5-flash"

/-- GoogleAIConfig.SCORING_MODEL. -/
def googleScoringModel : String := "gemini-1.5-flash"

/-- Outcome of `client.models.generate_content(...)`: an exception, or a
response whose text field is modelled as a string ("" for an
empty/absent text). -/
inductive GenOutcome where
  | raises (msg : String)
  | returns (text : String)

/-- The OpenAI-shaped response wrapper built by the Google adapter
(MockResponse: choices[0].message.content). -/
structure GoogleResponse where
  content : String
deriving DecidableEq

/-- The first "user" message's content; "" when there is none. -/
def findUserContent (messages : List (String × String)) : String :=
  match messages.find? (fun m => m.1 = "user") with
  | some m => m.2
  | none => ""

/-- The gpt-model to Gemma mapping of chat_completions_create. -/
def mapGoogleModel (model : String) : String :=
  if model = "gpt-3.5-turbo" then googleChatModel
  else if model = "gpt-4" then googleScoringModel
  else googleChatModel

/-- GoogleAIClient.chat_completions_create: on any exception inside the
try block (including the transport call), the handler logs, then raises
a NEW exception wrapping the message — the error is re-raised, not
returned. -/
def google_chat_completions_create (outcome : GenOutcome) (model : String)
    (messages : List (String × String)) : Except String GoogleResponse :=
  let user_content := findUserContent messages
  if user_content = "" then
    .error ("Google AI API error: No user message found in the request")
  else
    let _gemma_model := mapGoogleModel model
    match outcome with
    | .raises e => .error ("Google AI API error: " ++ e)
    | .returns text =>
      if text = "" then
        .error ("Google AI API error: Empty response from Google AI API, please check your API key, credit and model configuration.")
      else .ok ⟨text⟩

/-- Outcome of `requests.post(f"{base_url}/api/generate", ...)`:
a raised exception, a 200 response with an optional "response" field in
its JSON body, or a non-2xx response with its text. -/
inductive LocalHttp where
  | raises (msg : String)
  | ok200 (respField : Option String)
  | non200 (status : ℕ) (text : String)

/-- The OpenAI-shaped CompletionResponse of the local adapter, reduced
to the observable fields. -/
structure LocalCompletionResponse where
  content : String
  model : String
deriving DecidableEq

/-- LocalAIClient.generate_completion: a 200 response yields a
CompletionResponse with the stripped "response" field; a non-2xx status
raises; the `except` handler logs and RE-RAISES the exception. -/
def generate_completion (model : String) (outcome : LocalHttp) :
    Except String LocalCompletionResponse :=
  match outcome with
  | .raises e => .error e
  | .ok200 respField => .ok ⟨pyStrip (respField.getD ""), model⟩
  | .non200 status text =>
      .error ("Local AI request failed: " ++ toString status ++ " - " ++ text)

/-! ## AI client factory (ai_client_factory.py) -/

/-- The provider environment the factory probes: Ollama liveness and
model enumeration, credentials, and possible construction exceptions
(each `some e` means that constructor raises with message `e`). -/
structure FactoryEnv where
  ollama_running : Bool
  ollama_models : List String
  local_create_raises : Option String
  google_api_key : String
  google_ctor_raises : Option String
  openai_api_key : String
  openai_ctor_raises : Option String
  default_local_model : String

/-- The bits of st.session_state the factory reads and writes. -/
structure Session where
  ai_provider : String
  selected_local_model : Option String

/-- A constructed client: the error mock, or one of the three
provider-bound clients. -/
inductive Client where
  | mock (error_message : String)
  | localClient (model : String)
  | googleClient
  | openaiClient

/-- The result triple of create_client: (client, provider_name,
is_successful). -/
structure CreateResult where
  client : Client
  provider_name : String
  success : Bool

/-- MockChatCompletions.create: the response's message content for an
error client (choices[0].message.content). -/
def mock_chat_create (c : Client) : Option String :=
  match c with
  | .mock m => some ("Error: " ++ m)
  | _ => none

/-- AIClientFactory._create_fallback_client. -/
def create_fallback_client (error_message : String) : CreateResult :=
  ⟨.mock error_message, "Error (Mock Client)", false⟩

/-- AIClientFactory._create_local_client. The session's selected model
(or the config default) is validated against the enumeration; an absent
model is replaced by the first enumerated one and written back into the
session BEFORE client construction, so a construction exception still
leaves the substitution in place. -/
def create_local_client (env : FactoryEnv) (s : Session) : CreateResult × Session :=
  if env.ollama_running = false then
    (create_fallback_client "Ollama server not running. Please start with 'ollama serve'", s)
  else
    match env.ollama_models with
    | [] =>
      (create_fallback_client "No Ollama models found. Please install with 'ollama pull gemma2:2b'", s)
    | m0 :: _ =>
      let chosen := s.selected_local_model.getD env.default_local_model
      let (model_to_use, s1) :=
        if chosen ∈ env.ollama_models then (chosen, s)
        else (m0, { s with selected_local_model := some m0 })
      match env.local_create_raises with
      | some e => (create_fallback_client ("Local AI error: " ++ e), s1)
      | none => (⟨.localClient model_to_use, "Local AI (" ++ model_to_use ++ ")", true⟩, s1)

/-- AIClientFactory._create_google_client. -/
def create_google_client (env : FactoryEnv) : CreateResult :=
  if env.google_api_key = "" then
    create_fallback_client "Google AI API key not provided"
  else
    match env.google_ctor_raises with
    | some e => create_fallback_client ("Google AI error: " ++ e)
    | none => ⟨.googleClient, "Google AI (Gemma 3)", true⟩

/-- AIClientFactory._create_openai_client. -/
def create_openai_client (env : FactoryEnv) : CreateResult :=
  if env.openai_api_key = "" then
    create_fallback_client "OpenAI API key not provided"
  else
    match env.openai_ctor_raises with
    | some e => create_fallback_client ("OpenAI error: " ++ e)
    | none => ⟨.openaiClient, "OpenAI", true⟩

/-- AIClientFactory.create_client: dispatch on the provider name. -/
def create_client (env : FactoryEnv) (s : Session) (provider : String) :
    CreateResult × Session :=
  if provider = "Local AI (Ollama)" then create_local_client env s
  else if provider = "Google AI" then (create_google_client env, s)
  else if provider = "OpenAI" then (create_openai_client env, s)
  else (create_fallback_client ("Unknown provider: " ++ provider), s)

/-- The fixed failover order of get_working_client. -/
def providerOrder : List String := ["Local AI (Ollama)", "Google AI", "OpenAI"]

/-- The failover loop of get_working_client: providers equal to the
current one are skipped; the first success updates
st.session_state.ai_provider; `last` carries the most recent failed
result (Python variable shadowing). -/
def gwcLoop (env : FactoryEnv) : List String → String → CreateResult → Session →
    CreateResult × Session
  | [], _, last, s => (last, s)
  | p :: ps, current, last, s =>
    if p = current then gwcLoop env ps current last s
    else
      let r := create_client env s p
      if r.1.success then (r.1, { r.2 with ai_provider := p })
      else gwcLoop env ps current r.1 r.2

/-- AIClientFactory.get_working_client. -/
def get_working_client (env : FactoryEnv) (s : Session) : CreateResult × Session :=
  let current := s.ai_provider
  let first := create_client env s current
  if first.1.success then first
  else gwcLoop env providerOrder current first.1 first.2

/-- Whether create_client succeeds for a provider name, in terms of the
environment alone. -/
def provider_available (env : FactoryEnv) (p : String) : Bool :=
  if p = "Local AI (Ollama)" then
    env.ollama_running && !env.ollama_models.isEmpty && env.local_create_raises.isNone
  else if p = "Google AI" then
    env.google_api_key != "" && env.google_ctor_raises.isNone
  else if p = "OpenAI" then
    env.openai_api_key != "" && env.openai_ctor_raises.isNone
  else false

/-- First provider of a list that is available. -/
def firstAvailable (env : FactoryEnv) : List String → Option String
  | [] => none
  | p :: ps => if provider_available env p then some p else firstAvailable env ps

/-- The last provider get_working_client attempts when everything
fails: OpenAI, unless OpenAI was the (already tried) current provider,
in which case Google AI. -/
def lastTried (current : String) : String :=
  if current = "OpenAI" then "Google AI" else "OpenAI"

/-! ## Concrete inputs used by counterexamples and witnesses -/

/-- A model reply holding an untagged fence with clean JSON followed by
a json-tagged fence with different clean JSON. -/
def exC7input : String :=
  "```\n\x7b\"a\": 1\x7d\n```\n```json\n\x7b\"b\": 2\x7d\n```"

/-- The document inside the json-tagged fence of `exC7input`. -/
def exDocB : Json := .obj [("b", .num 2)]

/-- The spec's rubric example: 4 total marks, keywords H2O, hydrogen,
oxygen. -/
def exQuestion : QuestionData :=
  { question := "Explain the composition of water.",
    total_marks := 4,
    marking_scheme :=
      [ { criterion := "Define water as H2O compound", marks := 2,
          keywords := ["H2O", "hydrogen"] },
        { criterion := "Name the second element", marks := 2,
          keywords := ["oxygen"] } ],
    model_answer := "Water is H2O, made of hydrogen and oxygen." }

/-- A 50-word answer containing every rubric keyword of exQuestion. -/
def exAnswerHigh : String :=
  "H2O hydrogen oxygen w w w w w w w w w w w w w w w w w w w w w w w w w w w w w w w w w w w w w w w w w w w w w w w"

/-- A 2-word answer containing none of the rubric keywords. -/
def exAnswerLow : String := "no idea"

/-- The same rubric with fractional total marks 3.75 — an unvalidated
JSON number the scoring code accepts unchanged. -/
def exQuestionFrac : QuestionData :=
  { exQuestion with total_marks := 15/4 }

/-- A model scoring reply whose awarded total exceeds the maximum. -/
def exReplyOverMax : String :=
  "\x7b\"total_score\": 100, \"max_score\": 4\x7d"

/-- The parsed form of exReplyOverMax. -/
def exScoredDoc : Json := .obj [("total_score", .num 100), ("max_score", .num 4)]

/-- An environment where only the local provider works. -/
def envLocalOnly : FactoryEnv :=
  { ollama_running := true, ollama_models := ["gemma2:2b", "llama3"],
    local_create_raises := none,
    google_api_key := "", google_ctor_raises := none,
    openai_api_key := "", openai_ctor_raises := none,
    default_local_model := "gemma2:2b" }

/-- An environment where every provider fails. -/
def envAllFail : FactoryEnv :=
  { ollama_running := false, ollama_models := [],
    local_create_raises := none,
    google_api_key := "", google_ctor_raises := none,
    openai_api_key := "", openai_ctor_raises := none,
    default_local_model := "gemma2:2b" }

/-- A session currently pointing at the Google provider, with a
dangling selected local model. -/
def sessGoogle : Session := ⟨"Google AI", some "absent:model"⟩

/-- A session currently pointing at the OpenAI provider. -/
def sessOpenAI : Session := ⟨"OpenAI", none⟩

/-! ## Helper lemmas -/

theorem roundHalfEven_intCast (n : ℤ) : roundHalfEven (n : ℚ) = n := by
  unfold roundHalfEven
  simp only [Int.floor_intCast, sub_self]
  norm_num

theorem roundHalfEven_le (x : ℚ) : (roundHalfEven x : ℚ) ≤ x + 1/2 := by
  unfold roundHalfEven
  have hf : ((⌊x⌋ : ℚ)) ≤ x := Int.floor_le x
  split_ifs with h1 h2 h3 <;> push_cast <;> linarith

theorem le_roundHalfEven (x : ℚ) : x - 1/2 ≤ (roundHalfEven x : ℚ) := by
  unfold roundHalfEven
  have hf : x < (⌊x⌋ : ℚ) + 1 := Int.lt_floor_add_one x
  split_ifs with h1 h2 h3 <;> push_cast <;> linarith

theorem pyRound1_le (x : ℚ) : pyRound1 x ≤ x + 1/20 := by
  unfold pyRound1
  have h := roundHalfEven_le (x * 10)
  linarith

theorem le_pyRound1 (x : ℚ) : x - 1/20 ≤ pyRound1 x := by
  unfold pyRound1
  have h := le_roundHalfEven (x * 10)
  linarith

theorem pyRound1_eq_self (x : ℚ) (n : ℤ) (h : x * 10 = (n : ℚ)) : pyRound1 x = x := by
  unfold pyRound1
  rw [h, roundHalfEven_intCast, ← h]
  ring

theorem length_filter_all {α : Type} (p : α → Bool) (l : List α)
    (h : ∀ a ∈ l, p a = true) : (l.filter p).length = l.length := by
  induction l with
  | nil => rfl
  | cons a as ih =>
    have ha : p a = true := h a (List.mem_cons_self a as)
    simp [List.filter, ha, ih (fun b hb => h b (List.mem_cons_of_mem a hb))]

theorem keywordMatches_eq_total (q : QuestionData) (a : String)
    (h : allKeywordsFound q a) : keywordMatches q a = totalKeywords q := by
  unfold keywordMatches totalKeywords
  congr 1
  apply List.map_congr_left
  intro c hc
  exact length_filter_all _ _ (h c hc)

/-! ## C1: transport failures inside the provider adapters -/

/-- C1, counterexample. The claim says a transport failure is returned
as a completion result whose text explains the error and that no
exception propagates out of the adapter. In the code both adapters
RE-RAISE: GoogleAIClient.chat_completions_create wraps the exception
and raises it again (google_ai_client.py line 64), and
LocalAIClient.generate_completion bare-`raise`s (local_ai_client.py
line 180). At a concrete timeout both adapters produce an exception,
not a completion result. -/
theorem claim_C1_counterexample :
    google_chat_completions_create (.raises "Connection timed out") "gpt-4"
      [("user", "Score this answer")] = .error "Google AI API error: Connection timed out"
    ∧ (google_chat_completions_create (.raises "Connection timed out") "gpt-4"
        [("user", "Score this answer")]).isOk = false
    ∧ generate_completion "gemma2:2b" (.raises "Read timed out") = .error "Read timed out"
    ∧ (generate_completion "gemma2:2b" (.raises "Read timed out")).isOk = false :=
  ⟨rfl, rfl, rfl, rfl⟩

/-- C1, amended claim: transport failures are caught inside the
adapter, logged, and then RE-RAISED — the Google adapter raises a new
exception whose message wraps and explains the failure
("Google AI API error: ..."), including the empty-response case; the
local adapter re-raises the original exception unchanged, and turns a
non-2xx status into a raised exception carrying status and body. The
exception therefore propagates to the adapter's caller (where the
scoring and generation layers catch it). Only a 200 response becomes a
completion result. -/
theorem claim_C1_amended :
    ∀ (e text : String) (status : ℕ) (model : String) (rf : Option String),
      google_chat_completions_create (.raises e) model [("user", "prompt")]
        = .error ("Google AI API error: " ++ e)
      ∧ google_chat_completions_create (.returns "") model [("user", "prompt")]
        = .error ("Google AI API error: Empty response from Google AI API, please check your API key, credit and model configuration.")
      ∧ generate_completion "gemma2:2b" (.raises e) = .error e
      ∧ generate_completion "gemma2:2b" (.non200 status text)
        = .error ("Local AI request failed: " ++ toString status ++ " - " ++ text)
      ∧ generate_completion "gemma2:2b" (.ok200 rf) = .ok ⟨pyStrip (rf.getD ""), "gemma2:2b"⟩ := by
  intro e text status model rf
  exact ⟨rfl, rfl, rfl, rfl, rfl⟩

/-! ## C2: the scoring fallback path can itself raise -/

/-- C2, code bug evaluation. The claim (and the spec) say a failing
model path falls back to the heuristic scorer exactly once and never
raises. In the code the `except Exception` handler calls `st.error`,
but `import streamlit as st` only runs inside the `if use_local_ai`
branch of the try block — so whenever use_local_ai is false and the
completion call raises (or extracted JSON fails to parse), the handler
itself raises UnboundLocalError to the caller instead of falling back.
The same failing completion with use_local_ai true does reach the
fallback, confirming that the fallback is the intent. -/
theorem claim_C2_bug_eval :
    score_open_ended_answer false (.error "Connection refused") exQuestion "Water is H2O"
      = .error "UnboundLocalError: local variable st referenced before assignment"
    ∧ score_open_ended_answer true (.error "Connection refused") exQuestion "Water is H2O"
      = .ok (fallback_scoring exQuestion "Water is H2O") :=
  ⟨rfl, rfl⟩

/-! ## C7: the extraction cascade of generate_quiz -/

/-- C7, counterexample. The claim's step (2) parses the span inside a
fence TAGGED "json" and only step (3) an untagged fence. The code's
step-(2) regex makes the tag optional, so an earlier untagged fence is
matched first and its greedy span can swallow a later tagged fence. On
exC7input the claim's strategy returns the tagged fence's document
while the code fails every parse and returns the error dict. -/
theorem claim_C7_counterexample :
    extractQuizData exC7input
      = .error ("Failed to parse quiz data. Response content: " ++ exC7input)
    ∧ claimExtractStrategy exC7input = .ok exDocB
    ∧ extractQuizData exC7input ≠ claimExtractStrategy exC7input := by
  have h1 : extractQuizData exC7input
      = .error ("Failed to parse quiz data. Response content: " ++ exC7input) := rfl
  have h2 : claimExtractStrategy exC7input = .ok exDocB := rfl
  refine ⟨h1, h2, ?_⟩
  intro h
  rw [h1, h2] at h
  exact QuizOutcome.noConfusion h

/-- C7, amended claim: the cascade is (1) parse the whole trimmed text,
(2) parse the greedy brace span of the first triple-backtick fence
whose "json" tag is OPTIONAL, (3) the same with no tag, (4) the greedy
first-`{`-to-last-`}` span, first success winning, else the error
result with the raw text truncated to at most 1000 characters. -/
theorem claim_C7_amended :
    ∀ raw : String, extractQuizData raw = amendedExtractStrategy raw := by
  intro raw
  unfold extractQuizData amendedExtractStrategy
  cases h1 : jsonLoads (pyStrip raw).data <;>
    cases h2 : (searchFence .optionalTag (pyStrip raw).data).bind jsonLoads <;>
      cases h3 : (searchFence .noTag (pyStrip raw).data).bind jsonLoads <;>
        cases h4 : (braceSpan (pyStrip raw).data).bind jsonLoads <;>
          simp [h1, h2, h3, h4, firstSome]

/-! ## C9: empty or whitespace-only answers -/

/-- C9, counterexample. The zero result is produced with no model call,
but its feedback string is "No answer provided." — with a trailing
period — not the claimed "No answer provided". -/
theorem claim_C9_counterexample :
    score_open_ended_answer false (.error "no network") exQuestion "   "
      = .ok (emptyAnswerResult exQuestion)
    ∧ jsonLookup (emptyAnswerResult exQuestion) "feedback" = some (.str "No answer provided.")
    ∧ ("No answer provided." : String) ≠ "No answer provided" := by
  refine ⟨rfl, rfl, ?_⟩
  decide

/-- C9, amended claim: for every question, an empty or whitespace-only
answer returns immediately with totalScore 0, percentage 0, maxScore
equal to the question's total marks, feedback "No answer provided."
(with its trailing period) and an empty criterion-score list. The
result is the same for EVERY completion oracle — in particular for a
raising one — which is the no-network-call property. -/
theorem claim_C9_amended :
    ∀ (use_local_ai : Bool) (completion : Except String String)
      (q : QuestionData) (a : String),
      pyStrip a = "" →
      score_open_ended_answer use_local_ai completion q a
        = .ok (Json.obj
            [ ("total_score", .num 0),
              ("max_score", .num q.total_marks),
              ("percentage", .num 0),
              ("feedback", .str "No answer provided."),
              ("criterion_scores", .arr []) ]) := by
  intro u c q a h
  unfold score_open_ended_answer
  rw [if_pos h]
  rfl

/-- C9 witness: the amended theorem applied to a concrete
whitespace-only answer, a raising completion and exQuestion. -/
theorem claim_C9_witness :
    pyStrip " \t " = ""
    ∧ score_open_ended_answer false (.error "no network") exQuestion " \t "
      = .ok (Json.obj
          [ ("total_score", .num 0),
            ("max_score", .num 4),
            ("percentage", .num 0),
            ("feedback", .str "No answer provided."),
            ("criterion_scores", .arr []) ]) :=
  ⟨rfl, claim_C9_amended false (.error "no network") exQuestion " \t " rfl⟩

/-! ## C4: the model scoring path has no sanity bound -/

/-- C4, counterexample. The claim says an extracted result is returned
only if its total awarded score is at most the maximum, and that every
returned result satisfies 0 ≤ totalScore ≤ maxScore. The code returns
the parsed JSON unconditionally (open_ended_processor.py lines
250-253): a reply awarding 100 of 4 marks is returned as-is. -/
theorem claim_C4_counterexample :
    score_open_ended_answer false (.ok exReplyOverMax) exQuestion "Water is wet"
      = .ok exScoredDoc
    ∧ jsonLookup exScoredDoc "total_score" = some (.num 100)
    ∧ jsonLookup exScoredDoc "max_score" = some (.num 4)
    ∧ ¬ ((100 : ℚ) ≤ 4) := by
  refine ⟨rfl, rfl, rfl, ?_⟩
  norm_num

/-- C4, amended claim: when the completion returns and a JSON object is
extracted from the reply (a brace span is found and parses), the parsed
result is returned to the caller UNCHANGED — no bound on its total
score is checked, so 0 ≤ totalScore ≤ maxScore is not enforced on the
model path. -/
theorem claim_C4_amended :
    ∀ (use_local_ai : Bool) (q : QuestionData) (a raw : String)
      (span : List Char) (doc : Json),
      ¬ (pyStrip a = "") →
      braceSpan (pyStrip raw).toList = some span →
      jsonLoads span = some doc →
      score_open_ended_answer use_local_ai (.ok raw) q a = .ok doc := by
  intro u q a raw span doc h hb hj
  unfold score_open_ended_answer
  rw [if_neg h]
  simp only [hb, hj]

/-- C4 witness: the amended theorem applied to a concrete over-the-max
reply on the local path. -/
theorem claim_C4_witness :
    ¬ (pyStrip "Water" = "")
    ∧ braceSpan (pyStrip exReplyOverMax).toList = some exReplyOverMax.toList
    ∧ jsonLoads exReplyOverMax.toList = some exScoredDoc
    ∧ score_open_ended_answer true (.ok exReplyOverMax) exQuestion "Water"
      = .ok exScoredDoc :=
  ⟨by decide, rfl, rfl,
    claim_C4_amended true exQuestion "Water" exReplyOverMax exReplyOverMax.toList
      exScoredDoc (by decide) rfl rfl⟩

/-! ## C6: the deterministic heuristic fallback scorer -/

/-- C6, counterexample. The claim asserts that for EVERY question with
positive totalMarks both heuristic scores are at most totalMarks. The
code takes total_marks from unvalidated model JSON, so fractional
values — even inside the spec's [2,5] range — are reachable: at
totalMarks = 3.75, an answer containing every rubric keyword with at
least 50 words gets final score 1.0·3.75 = 3.75, and round(3.75, 1)
is 3.8 (ties to even) — strictly MORE than totalMarks. -/
theorem claim_C6_counterexample :
    (0 : ℚ) < exQuestionFrac.total_marks
    ∧ allKeywordsFound exQuestionFrac exAnswerHigh
    ∧ 50 ≤ wordCount exAnswerHigh
    ∧ jsonLookup (fallback_scoring exQuestionFrac exAnswerHigh) "total_score"
        = some (.num (19/5))
    ∧ ¬ ((19 : ℚ)/5 ≤ exQuestionFrac.total_marks) := by
  have hM : exQuestionFrac.total_marks = 15/4 := rfl
  have hw : wordCount exAnswerHigh = 50 := by decide
  have hm : keywordMatches exQuestionFrac exAnswerHigh = 3 := by decide
  have ht : totalKeywords exQuestionFrac = 3 := by decide
  have hlk : jsonLookup (fallback_scoring exQuestionFrac exAnswerHigh) "total_score"
      = some (.num (pyRound1 ((min 1 ((wordCount exAnswerHigh : ℚ) / 50) * 0.3
          + ((keywordMatches exQuestionFrac exAnswerHigh : ℚ)
              / ((max (totalKeywords exQuestionFrac) 1 : ℕ) : ℚ)) * 0.7)
          * exQuestionFrac.total_marks))) := rfl
  have hpy : pyRound1 (15/4 : ℚ) = 19/5 := by
    unfold pyRound1 roundHalfEven
    have hfloor : ⌊(15/4 : ℚ) * 10⌋ = 37 := by
      rw [Int.floor_eq_iff]
      constructor <;> norm_num
    rw [hfloor, if_neg (by norm_num), if_neg (by norm_num), if_neg (by decide)]
    norm_num
  refine ⟨by rw [hM]; norm_num, by decide, by decide, ?_, by rw [hM]; norm_num⟩
  rw [hlk, hw, hm, ht]
  have harg : (min 1 (((50 : ℕ) : ℚ) / 50) * 0.3
      + (((3 : ℕ) : ℚ) / ((max 3 1 : ℕ) : ℚ)) * 0.7)
      * exQuestionFrac.total_marks = 15/4 := by
    rw [hM]
    norm_num
  rw [harg, hpy]

/-- C6, amended claim: for every question whose totalMarks is a
positive WHOLE number (as the generation prompt mandates: 2-5 whole
marks), the fallback result's total_score equals the claim's formula
round((0.3·min(1, wc/50) + 0.7·(matches/max(total,1)))·totalMarks, 1),
its criterion-score list is empty, and its feedback text is the fixed
string disclosing that AI detailed scoring is unavailable; moreover an
answer containing every rubric keyword with at least 50 words scores
strictly above an answer with zero keyword matches and fewer than 10
words, and both scores are at most totalMarks. (The formula and shape
conjuncts hold for arbitrary totalMarks; integrality is needed only for
the bound, as the counterexample shows.) -/
theorem claim_C6_amended :
    ∀ (q : QuestionData) (n : ℕ) (a a1 a2 : String),
      q.total_marks = (n : ℚ) →
      0 < n →
      (jsonLookup (fallback_scoring q a) "total_score"
          = some (.num (claimFallbackScore q a))
        ∧ jsonLookup (fallback_scoring q a) "criterion_scores" = some (.arr [])
        ∧ jsonLookup (fallback_scoring q a) "overall_feedback"
          = some (.str "Answer evaluated using basic scoring. AI detailed scoring unavailable."))
      ∧ (allKeywordsFound q a1 → 50 ≤ wordCount a1 →
          keywordMatches q a2 = 0 → wordCount a2 < 10 →
            claimFallbackScore q a2 < claimFallbackScore q a1
            ∧ claimFallbackScore q a1 ≤ q.total_marks
            ∧ claimFallbackScore q a2 ≤ q.total_marks) := by
  intro q n a a1 a2 hqn hn
  have hM1 : (1 : ℚ) ≤ q.total_marks := by
    rw [hqn]
    exact_mod_cast hn
  have hM0 : (0 : ℚ) ≤ q.total_marks := by linarith
  constructor
  · have hv : pyRound1 ((min 1 ((wordCount a : ℚ) / 50) * 0.3
        + (keywordMatches q a : ℚ) / ((max (totalKeywords q) 1 : ℕ) : ℚ) * 0.7)
        * (q.total_marks : ℚ)) = claimFallbackScore q a := by
      unfold claimFallbackScore
      congr 1
      ring
    refine ⟨?_, rfl, rfl⟩
    show some (Json.num (pyRound1 ((min 1 ((wordCount a : ℚ) / 50) * 0.3
        + (keywordMatches q a : ℚ) / ((max (totalKeywords q) 1 : ℕ) : ℚ) * 0.7)
        * (q.total_marks : ℚ)))) = some (.num (claimFallbackScore q a))
    rw [hv]
  · intro hall h50 h0 h10
    have hmatch1 : keywordMatches q a1 = totalKeywords q :=
      keywordMatches_eq_total q a1 hall
    have hbase1 : min (1 : ℚ) ((wordCount a1 : ℚ) / 50) = 1 := by
      apply min_eq_left
      rw [le_div_iff₀ (by norm_num : (0:ℚ) < 50)]
      have : (50 : ℚ) ≤ (wordCount a1 : ℚ) := by exact_mod_cast h50
      linarith
    have hb2u : min (1 : ℚ) ((wordCount a2 : ℚ) / 50) ≤ 9 / 50 := by
      refine le_trans (min_le_right _ _) ?_
      have hw : (wordCount a2 : ℚ) ≤ 9 := by
        exact_mod_cast Nat.lt_succ_iff.mp h10
      linarith
    have hb2l : (0 : ℚ) ≤ min (1 : ℚ) ((wordCount a2 : ℚ) / 50) := by
      refine le_min (by norm_num) ?_
      positivity
    unfold claimFallbackScore
    rw [hbase1, hmatch1, h0]
    have hzero : ((0 : ℕ) : ℚ) / ((max (totalKeywords q) 1 : ℕ) : ℚ) = 0 := by
      simp
    rw [hzero]
    have hx2u : (0.3 * min (1:ℚ) ((wordCount a2 : ℚ) / 50) + 0.7 * 0) * (q.total_marks : ℚ)
        ≤ 27/500 * (q.total_marks : ℚ) := by
      have hc : 0.3 * min (1:ℚ) ((wordCount a2 : ℚ) / 50) + 0.7 * 0 ≤ 27/500 := by
        linarith
      exact mul_le_mul_of_nonneg_right hc hM0
    have hs2u := pyRound1_le ((0.3 * min (1:ℚ) ((wordCount a2 : ℚ) / 50) + 0.7 * 0)
        * (q.total_marks : ℚ))
    rcases Nat.eq_zero_or_pos (totalKeywords q) with hT | hT
    · rw [hT]
      have hz2 : ((0 : ℕ) : ℚ) / ((max 0 1 : ℕ) : ℚ) = 0 := by simp
      rw [hz2]
      have hs1l := le_pyRound1 ((0.3 * (1:ℚ) + 0.7 * 0) * (q.total_marks : ℚ))
      have hs1u := pyRound1_le ((0.3 * (1:ℚ) + 0.7 * 0) * (q.total_marks : ℚ))
      refine ⟨by linarith, by linarith, by linarith⟩
    · have hT1 : 1 ≤ totalKeywords q := hT
      rw [Nat.max_eq_left hT1]
      have hTne : ((totalKeywords q : ℕ) : ℚ) ≠ 0 := by
        exact_mod_cast Nat.pos_iff_ne_zero.mp hT
      rw [div_self hTne]
      have harg : (0.3 * (1:ℚ) + 0.7 * 1) * (q.total_marks : ℚ) = (q.total_marks : ℚ) := by
        ring
      rw [harg]
      have hM10 : q.total_marks * 10 = ((10 * n : ℤ) : ℚ) := by
        rw [hqn]
        push_cast
        ring
      have hs1 : pyRound1 q.total_marks = q.total_marks :=
        pyRound1_eq_self _ _ hM10
      rw [hs1]
      refine ⟨by linarith, le_refl _, by linarith⟩

/-- C6 witness: the amended theorem applied to the spec's water rubric
(4 whole marks), a 50-word all-keyword answer and a 2-word keyword-free
answer. -/
theorem claim_C6_witness :
    exQuestion.total_marks = ((4 : ℕ) : ℚ)
    ∧ 0 < (4 : ℕ)
    ∧ allKeywordsFound exQuestion exAnswerHigh
    ∧ 50 ≤ wordCount exAnswerHigh
    ∧ keywordMatches exQuestion exAnswerLow = 0
    ∧ wordCount exAnswerLow < 10
    ∧ claimFallbackScore exQuestion exAnswerLow < claimFallbackScore exQuestion exAnswerHigh
    ∧ claimFallbackScore exQuestion exAnswerHigh ≤ exQuestion.total_marks
    ∧ claimFallbackScore exQuestion exAnswerLow ≤ exQuestion.total_marks := by
  have h0 : exQuestion.total_marks = ((4 : ℕ) : ℚ) := by norm_num [exQuestion]
  have h1 : 0 < (4 : ℕ) := by decide
  have h2 : allKeywordsFound exQuestion exAnswerHigh := by decide
  have h3 : 50 ≤ wordCount exAnswerHigh := by decide
  have h4 : keywordMatches exQuestion exAnswerLow = 0 := by decide
  have h5 : wordCount exAnswerLow < 10 := by decide
  have hmain := ((claim_C6_amended exQuestion 4 exAnswerHigh exAnswerHigh
    exAnswerLow h0 h1).2 h2 h3 h4 h5)
  exact ⟨h0, h1, h2, h3, h4, h5, hmain.1, hmain.2.1, hmain.2.2⟩

/-! ## C8: the selected local model tracks the enumeration -/

/-- C8, confirmed. Whenever _create_local_client succeeds, the returned
client is bound to a model in the enumerated list; any model recorded
in the session after the call is in that list; and when the previously
selected model (session value, or the config default when unset) is
absent from the enumeration, the first enumerated model is substituted,
recorded in the session, and used for the client. -/
theorem claim_C8_local_model_invariant :
    ∀ (env : FactoryEnv) (s : Session),
      ((create_local_client env s).1).success = true →
      ∃ m, ((create_local_client env s).1).client = Client.localClient m
        ∧ m ∈ env.ollama_models
        ∧ (∀ m2, ((create_local_client env s).2).selected_local_model = some m2 →
            m2 ∈ env.ollama_models)
        ∧ ((s.selected_local_model.getD env.default_local_model) ∉ env.ollama_models →
            ((create_local_client env s).2).selected_local_model = some m
            ∧ env.ollama_models.head? = some m) := by
  intro env s hsucc
  cases hrun : env.ollama_running with
  | false =>
    exfalso
    simp [create_local_client, hrun, create_fallback_client] at hsucc
  | true =>
    cases hmods : env.ollama_models with
    | nil =>
      exfalso
      simp [create_local_client, hrun, hmods, create_fallback_client] at hsucc
    | cons m0 ms =>
      cases hraises : env.local_create_raises with
      | some e =>
        exfalso
        simp only [create_local_client, hrun, hmods, hraises] at hsucc
        split at hsucc <;> simp [create_fallback_client] at hsucc
      | none =>
        by_cases hmem : (s.selected_local_model.getD env.default_local_model)
            ∈ env.ollama_models
        · have hmem2 : (s.selected_local_model.getD env.default_local_model)
              ∈ m0 :: ms := hmods ▸ hmem
          have hred : create_local_client env s
              = (⟨Client.localClient (s.selected_local_model.getD env.default_local_model),
                  "Local AI (" ++ (s.selected_local_model.getD env.default_local_model) ++ ")",
                  true⟩, s) := by
            simp [create_local_client, hrun, hmods, hraises, hmem2]
          refine ⟨s.selected_local_model.getD env.default_local_model,
            by rw [hred], hmem2, ?_, fun habs => absurd hmem2 habs⟩
          intro m2 hm2
          rw [hred] at hm2
          cases hsel : s.selected_local_model with
          | none => rw [hsel] at hm2; exact absurd hm2 (by simp)
          | some mm =>
            have hval : mm = m2 := by rw [hsel] at hm2; simpa using hm2
            subst hval
            have hget : s.selected_local_model.getD env.default_local_model = mm := by
              rw [hsel]; rfl
            rw [← hget]
            exact hmem2
        · have hmem2 : ¬ ((s.selected_local_model.getD env.default_local_model)
              ∈ m0 :: ms) := fun h => hmem (hmods ▸ h)
          have hred : create_local_client env s
              = (⟨Client.localClient m0, "Local AI (" ++ m0 ++ ")", true⟩,
                 { s with selected_local_model := some m0 }) := by
            simp [create_local_client, hrun, hmods, hraises, hmem2]
          refine ⟨m0, by rw [hred], List.mem_cons_self m0 ms, ?_, ?_⟩
          · intro m2 hm2
            rw [hred] at hm2
            have hval : m0 = m2 := by simpa using hm2
            subst hval
            exact List.mem_cons_self _ _
          · intro _
            exact ⟨by rw [hred], rfl⟩

/-- C8 witness: the theorem applied to an environment enumerating two
models and a session whose selected model is absent from the list. -/
theorem claim_C8_witness :
    ((create_local_client envLocalOnly sessGoogle).1).success = true
    ∧ ∃ m, ((create_local_client envLocalOnly sessGoogle).1).client = Client.localClient m
        ∧ m ∈ envLocalOnly.ollama_models
        ∧ (∀ m2, ((create_local_client envLocalOnly sessGoogle).2).selected_local_model
              = some m2 → m2 ∈ envLocalOnly.ollama_models)
        ∧ ((sessGoogle.selected_local_model.getD envLocalOnly.default_local_model)
              ∉ envLocalOnly.ollama_models →
            ((create_local_client envLocalOnly sessGoogle).2).selected_local_model = some m
            ∧ envLocalOnly.ollama_models.head? = some m) :=
  ⟨rfl, claim_C8_local_model_invariant envLocalOnly sessGoogle rfl⟩

/-! ## Factory dispatch and success lemmas -/

theorem create_client_local (env : FactoryEnv) (s : Session) :
    create_client env s "Local AI (Ollama)" = create_local_client env s := by
  simp [create_client]

theorem create_client_google (env : FactoryEnv) (s : Session) :
    create_client env s "Google AI" = (create_google_client env, s) := by
  simp [create_client]

theorem create_client_openai (env : FactoryEnv) (s : Session) :
    create_client env s "OpenAI" = (create_openai_client env, s) := by
  simp [create_client]

theorem create_client_unknown (env : FactoryEnv) (s : Session) (p : String)
    (h1 : p ≠ "Local AI (Ollama)") (h2 : p ≠ "Google AI") (h3 : p ≠ "OpenAI") :
    create_client env s p = (create_fallback_client ("Unknown provider: " ++ p), s) := by
  simp [create_client, h1, h2, h3]

theorem local_client_success (env : FactoryEnv) (s : Session) :
    ((create_local_client env s).1).success
      = (env.ollama_running && !env.ollama_models.isEmpty
          && env.local_create_raises.isNone) := by
  cases hrun : env.ollama_running with
  | false => simp [create_local_client, hrun, create_fallback_client]
  | true =>
    cases hmods : env.ollama_models with
    | nil => simp [create_local_client, hrun, hmods, create_fallback_client]
    | cons m0 ms =>
      cases hraises : env.local_create_raises with
      | some e =>
        simp only [create_local_client, hrun, hmods, hraises]
        split <;> simp_all [create_fallback_client]
      | none =>
        simp only [create_local_client, hrun, hmods, hraises]
        split <;> simp_all

theorem google_client_success (env : FactoryEnv) :
    (create_google_client env).success
      = (env.google_api_key != "" && env.google_ctor_raises.isNone) := by
  by_cases hkey : env.google_api_key = ""
  · simp [create_google_client, hkey, create_fallback_client]
  · cases hraises : env.google_ctor_raises with
    | some e => simp [create_google_client, hkey, hraises, create_fallback_client]
    | none => simp [create_google_client, hkey, hraises]

theorem openai_client_success (env : FactoryEnv) :
    (create_openai_client env).success
      = (env.openai_api_key != "" && env.openai_ctor_raises.isNone) := by
  by_cases hkey : env.openai_api_key = ""
  · simp [create_openai_client, hkey, create_fallback_client]
  · cases hraises : env.openai_ctor_raises with
    | some e => simp [create_openai_client, hkey, hraises, create_fallback_client]
    | none => simp [create_openai_client, hkey, hraises]

theorem create_client_success (env : FactoryEnv) (s : Session) (p : String) :
    ((create_client env s p).1).success = provider_available env p := by
  by_cases h1 : p = "Local AI (Ollama)"
  · subst h1
    rw [create_client_local, local_client_success]
    simp [provider_available]
  · by_cases h2 : p = "Google AI"
    · subst h2
      rw [create_client_google]
      simp [provider_available, google_client_success]
    · by_cases h3 : p = "OpenAI"
      · subst h3
        rw [create_client_openai]
        simp [provider_available, openai_client_success]
      · rw [create_client_unknown env s p h1 h2 h3]
        simp [provider_available, h1, h2, h3, create_fallback_client]

theorem create_client_keeps_provider (env : FactoryEnv) (s : Session) (p : String) :
    ((create_client env s p).2).ai_provider = s.ai_provider := by
  by_cases h1 : p = "Local AI (Ollama)"
  · subst h1
    rw [create_client_local]
    cases hrun : env.ollama_running with
    | false => simp [create_local_client, hrun]
    | true =>
      cases hmods : env.ollama_models with
      | nil => simp [create_local_client, hrun, hmods]
      | cons m0 ms =>
        by_cases hmem : (s.selected_local_model.getD env.default_local_model) ∈ m0 :: ms <;>
          cases hraises : env.local_create_raises <;>
            simp [create_local_client, hrun, hmods, hraises, hmem]
  · by_cases h2 : p = "Google AI"
    · subst h2; rw [create_client_google]
    · by_cases h3 : p = "OpenAI"
      · subst h3; rw [create_client_openai]
      · rw [create_client_unknown env s p h1 h2 h3]

/-- On every provider other than Local the result triple does not
depend on the session passed in. -/
theorem create_client_fst_indep (env : FactoryEnv) (p : String)
    (h : p ≠ "Local AI (Ollama)") (s s2 : Session) :
    (create_client env s p).1 = (create_client env s2 p).1 := by
  by_cases h2 : p = "Google AI"
  · subst h2; rw [create_client_google, create_client_google]
  · by_cases h3 : p = "OpenAI"
    · subst h3; rw [create_client_openai, create_client_openai]
    · rw [create_client_unknown env s p h h2 h3, create_client_unknown env s2 p h h2 h3]

/-- Bridging forms of the success lemmas, stated on the undispatched
client constructors. -/
theorem google_pa (env : FactoryEnv) :
    (create_google_client env).success = provider_available env "Google AI" := by
  rw [google_client_success]
  simp [provider_available]

theorem openai_pa (env : FactoryEnv) :
    (create_openai_client env).success = provider_available env "OpenAI" := by
  rw [openai_client_success]
  simp [provider_available]

theorem local_pa (env : FactoryEnv) (s : Session) :
    ((create_local_client env s).1).success
      = provider_available env "Local AI (Ollama)" := by
  rw [local_client_success]
  simp [provider_available]

theorem local_keeps_provider (env : FactoryEnv) (s : Session) :
    ((create_local_client env s).2).ai_provider = s.ai_provider := by
  rw [← create_client_local env s]
  exact create_client_keeps_provider env s "Local AI (Ollama)"

/-! ## C3: create_client turns every failure into an error client -/

/-- Shared: every failed create_client result is the mock error client
whose completion content embeds the message. -/
theorem create_client_failure_mock (env : FactoryEnv) (s : Session) (provider : String) :
    ((create_client env s provider).1).success = false →
      ∃ m, ((create_client env s provider).1).client = Client.mock m
        ∧ ((create_client env s provider).1).provider_name = "Error (Mock Client)"
        ∧ mock_chat_create (((create_client env s provider).1).client)
            = some ("Error: " ++ m) := by
  by_cases hLp : provider = "Local AI (Ollama)"
  · subst hLp
    intro hfail
    · rw [create_client_local] at hfail ⊢
      cases hrun : env.ollama_running with
      | false =>
        have hred : create_local_client env s
            = (create_fallback_client
                "Ollama server not running. Please start with 'ollama serve'", s) := by
          simp [create_local_client, hrun]
        rw [hred]
        exact ⟨_, rfl, rfl, rfl⟩
      | true =>
        cases hmods : env.ollama_models with
        | nil =>
          have hred : create_local_client env s
              = (create_fallback_client
                  "No Ollama models found. Please install with 'ollama pull gemma2:2b'", s) := by
            simp [create_local_client, hrun, hmods]
          rw [hred]
          exact ⟨_, rfl, rfl, rfl⟩
        | cons m0 ms =>
          cases hraises : env.local_create_raises with
          | some e =>
            by_cases hmem : (s.selected_local_model.getD env.default_local_model)
                ∈ m0 :: ms
            · have hred : create_local_client env s
                  = (create_fallback_client ("Local AI error: " ++ e), s) := by
                simp [create_local_client, hrun, hmods, hraises, hmem]
              rw [hred]
              exact ⟨_, rfl, rfl, rfl⟩
            · have hred : create_local_client env s
                  = (create_fallback_client ("Local AI error: " ++ e),
                     { s with selected_local_model := some m0 }) := by
                simp [create_local_client, hrun, hmods, hraises, hmem]
              rw [hred]
              exact ⟨_, rfl, rfl, rfl⟩
          | none =>
            exfalso
            rw [local_client_success] at hfail
            simp [hrun, hmods, hraises] at hfail
  · by_cases hGp : provider = "Google AI"
    · subst hGp
      intro hfail
      · rw [create_client_google] at hfail ⊢
        by_cases hkey : env.google_api_key = ""
        · have hred : create_google_client env
              = create_fallback_client "Google AI API key not provided" := by
            simp [create_google_client, hkey]
          rw [hred]
          exact ⟨_, rfl, rfl, rfl⟩
        · cases hraises : env.google_ctor_raises with
          | some e =>
            have hred : create_google_client env
                = create_fallback_client ("Google AI error: " ++ e) := by
              simp [create_google_client, hkey, hraises]
            rw [hred]
            exact ⟨_, rfl, rfl, rfl⟩
          | none =>
            exfalso
            rw [google_client_success] at hfail
            simp [hkey, hraises] at hfail
    · by_cases hOp : provider = "OpenAI"
      · subst hOp
        intro hfail
        · rw [create_client_openai] at hfail ⊢
          by_cases hkey : env.openai_api_key = ""
          · have hred : create_openai_client env
                = create_fallback_client "OpenAI API key not provided" := by
              simp [create_openai_client, hkey]
            rw [hred]
            exact ⟨_, rfl, rfl, rfl⟩
          · cases hraises : env.openai_ctor_raises with
            | some e =>
              have hred : create_openai_client env
                  = create_fallback_client ("OpenAI error: " ++ e) := by
                simp [create_openai_client, hkey, hraises]
              rw [hred]
              exact ⟨_, rfl, rfl, rfl⟩
            | none =>
              exfalso
              rw [openai_client_success] at hfail
              simp [hkey, hraises] at hfail
      · have hred := create_client_unknown env s provider hLp hGp hOp
        intro _
        rw [hred]
        exact ⟨_, rfl, rfl, rfl⟩

/-- C3, confirmed. create_client is a total function (the embedding has
no exception channel because every constructor failure is caught in the
source): whenever it reports success=false — server down, zero models,
missing credential, construction exception, or unknown provider — the
returned client is a MockClient whose completion calls deterministically
return a response whose message content is "Error: " followed by the
human-readable message, under the provider name "Error (Mock Client)";
an unknown provider name always produces such a client. -/
theorem claim_C3_errors_are_data :
    ∀ (env : FactoryEnv) (s : Session) (provider : String),
      (((create_client env s provider).1).success = false →
        ∃ m, ((create_client env s provider).1).client = Client.mock m
          ∧ ((create_client env s provider).1).provider_name = "Error (Mock Client)"
          ∧ mock_chat_create (((create_client env s provider).1).client)
              = some ("Error: " ++ m))
      ∧ (provider ≠ "Local AI (Ollama)" → provider ≠ "Google AI" → provider ≠ "OpenAI" →
          ((create_client env s provider).1).success = false
          ∧ ((create_client env s provider).1).client
              = Client.mock ("Unknown provider: " ++ provider)) := by
  intro env s provider
  refine ⟨create_client_failure_mock env s provider, ?_⟩
  intro h1 h2 h3
  rw [create_client_unknown env s provider h1 h2 h3]
  exact ⟨rfl, rfl⟩

/-- C3 witness: the theorem applied to an environment with no Google
credential and the Google provider. -/
theorem claim_C3_witness :
    ((create_client envAllFail sessGoogle "Google AI").1).success = false
    ∧ ∃ m, ((create_client envAllFail sessGoogle "Google AI").1).client = Client.mock m
        ∧ ((create_client envAllFail sessGoogle "Google AI").1).provider_name
            = "Error (Mock Client)"
        ∧ mock_chat_create (((create_client envAllFail sessGoogle "Google AI").1).client)
            = some ("Error: " ++ m) :=
  ⟨rfl, (claim_C3_errors_are_data envAllFail sessGoogle "Google AI").1 rfl⟩

/-! ## Characterising get_working_client -/

theorem firstAvailable_avail (env : FactoryEnv) :
    ∀ (l : List String) (p : String), firstAvailable env l = some p →
      provider_available env p = true := by
  intro l
  induction l with
  | nil => intro p h; simp [firstAvailable] at h
  | cons q qs ih =>
    intro p h
    by_cases hq : provider_available env q = true
    · simp [firstAvailable, hq] at h
      rw [← h]
      exact hq
    · rw [Bool.not_eq_true] at hq
      simp [firstAvailable, hq] at h
      exact ih p h

theorem firstAvailable_none (env : FactoryEnv) :
    ∀ (l : List String), firstAvailable env l = none →
      ∀ p ∈ l, provider_available env p = false := by
  intro l
  induction l with
  | nil => intro _ p hp; simp at hp
  | cons q qs ih =>
    intro h p hp
    by_cases hq : provider_available env q = true
    · simp [firstAvailable, hq] at h
    · rw [Bool.not_eq_true] at hq
      simp [firstAvailable, hq] at h
      rcases List.mem_cons.mp hp with hqp | hmem
      · rw [hqp]; exact hq
      · exact ih h p hmem

theorem lastTried_mem_filter (cur : String) :
    lastTried cur ∈ providerOrder.filter (fun x => x != cur) := by
  by_cases h : cur = "OpenAI"
  · subst h
    simp [lastTried, providerOrder]
  · rw [List.mem_filter]
    refine ⟨?_, ?_⟩
    · simp [lastTried, h, providerOrder]
    · simp [lastTried, h, bne_iff_ne]
      intro habs
      exact h habs.symm

/-- Full behavioural characterisation of get_working_client: if the
preferred provider is available the result is exactly its create_client
result; otherwise the result is the create_client result of the first
available provider in the filtered fixed order, with the session's
ai_provider updated to it; and when none is available the result is the
last attempted (error) result with the ai_provider untouched. -/
theorem gwc_main (env : FactoryEnv) (s : Session) :
    (provider_available env s.ai_provider = true →
      get_working_client env s = create_client env s s.ai_provider)
    ∧ (provider_available env s.ai_provider = false →
        ∀ p, firstAvailable env (providerOrder.filter (fun x => x != s.ai_provider))
            = some p →
          (get_working_client env s).1 = (create_client env s p).1
          ∧ ((get_working_client env s).2).ai_provider = p)
    ∧ (provider_available env s.ai_provider = false →
        firstAvailable env (providerOrder.filter (fun x => x != s.ai_provider)) = none →
          (get_working_client env s).1 = (create_client env s (lastTried s.ai_provider)).1
          ∧ ((get_working_client env s).2).ai_provider = s.ai_provider) := by
  obtain ⟨cur, sel⟩ := s
  dsimp only
  by_cases hLp : cur = "Local AI (Ollama)"
  · subst hLp
    have hfilter : providerOrder.filter (fun x => x != "Local AI (Ollama)")
        = ["Google AI", "OpenAI"] := rfl
    rw [hfilter]
    refine ⟨?_, ?_, ?_⟩
    · intro havail
      have hsucc : (create_client env ⟨"Local AI (Ollama)", sel⟩ "Local AI (Ollama)").1.success
          = true := by rw [create_client_success]; exact havail
      simp only [get_working_client]
      rw [if_pos hsucc]
    · intro hun p hp
      have hsucc : (create_client env ⟨"Local AI (Ollama)", sel⟩ "Local AI (Ollama)").1.success
          = false := by rw [create_client_success]; exact hun
      cases hG : provider_available env "Google AI" with
      | true =>
        have hpG : p = "Google AI" := by simp [firstAvailable, hG] at hp; exact hp.symm
        subst hpG
        simp [get_working_client, hsucc, gwcLoop, providerOrder,
          create_client_local, create_client_google, local_pa, google_pa, hG, hun]
      | false =>
        cases hO : provider_available env "OpenAI" with
        | true =>
          have hpO : p = "OpenAI" := by
            simp [firstAvailable, hG, hO] at hp; exact hp.symm
          subst hpO
          simp [get_working_client, hsucc, gwcLoop, providerOrder,
            create_client_local, create_client_google, create_client_openai,
            local_pa, google_pa, openai_pa, hG, hO, hun]
        | false =>
          exfalso
          simp [firstAvailable, hG, hO] at hp
    · intro hun hnone
      have hsucc : (create_client env ⟨"Local AI (Ollama)", sel⟩ "Local AI (Ollama)").1.success
          = false := by rw [create_client_success]; exact hun
      have hG : provider_available env "Google AI" = false :=
        firstAvailable_none env _ hnone _ (by simp)
      have hO : provider_available env "OpenAI" = false :=
        firstAvailable_none env _ hnone _ (by simp)
      simp [get_working_client, hsucc, gwcLoop, providerOrder, lastTried,
        create_client_local, create_client_google, create_client_openai,
        local_pa, google_pa, openai_pa, hG, hO, hun, local_keeps_provider]
  · by_cases hGp : cur = "Google AI"
    · subst hGp
      have hfilter : providerOrder.filter (fun x => x != "Google AI")
          = ["Local AI (Ollama)", "OpenAI"] := rfl
      rw [hfilter]
      refine ⟨?_, ?_, ?_⟩
      · intro havail
        have hsucc : (create_client env ⟨"Google AI", sel⟩ "Google AI").1.success
            = true := by rw [create_client_success]; exact havail
        simp only [get_working_client]
        rw [if_pos hsucc]
      · intro hun p hp
        have hsucc : (create_client env ⟨"Google AI", sel⟩ "Google AI").1.success
            = false := by rw [create_client_success]; exact hun
        cases hL : provider_available env "Local AI (Ollama)" with
        | true =>
          have hpL : p = "Local AI (Ollama)" := by
            simp [firstAvailable, hL] at hp; exact hp.symm
          subst hpL
          simp [get_working_client, hsucc, gwcLoop, providerOrder,
            create_client_local, create_client_google, local_pa, google_pa, hL, hun]
        | false =>
          cases hO : provider_available env "OpenAI" with
          | true =>
            have hpO : p = "OpenAI" := by
              simp [firstAvailable, hL, hO] at hp; exact hp.symm
            subst hpO
            simp [get_working_client, hsucc, gwcLoop, providerOrder,
              create_client_local, create_client_google, create_client_openai,
              local_pa, google_pa, openai_pa, hL, hO, hun]
          | false =>
            exfalso
            simp [firstAvailable, hL, hO] at hp
      · intro hun hnone
        have hsucc : (create_client env ⟨"Google AI", sel⟩ "Google AI").1.success
            = false := by rw [create_client_success]; exact hun
        have hL : provider_available env "Local AI (Ollama)" = false :=
          firstAvailable_none env _ hnone _ (by simp)
        have hO : provider_available env "OpenAI" = false :=
          firstAvailable_none env _ hnone _ (by simp)
        simp [get_working_client, hsucc, gwcLoop, providerOrder, lastTried,
          create_client_local, create_client_google, create_client_openai,
          local_pa, google_pa, openai_pa, hL, hO, hun, local_keeps_provider]
    · by_cases hOp : cur = "OpenAI"
      · subst hOp
        have hfilter : providerOrder.filter (fun x => x != "OpenAI")
            = ["Local AI (Ollama)", "Google AI"] := rfl
        rw [hfilter]
        refine ⟨?_, ?_, ?_⟩
        · intro havail
          have hsucc : (create_client env ⟨"OpenAI", sel⟩ "OpenAI").1.success
              = true := by rw [create_client_success]; exact havail
          simp only [get_working_client]
          rw [if_pos hsucc]
        · intro hun p hp
          have hsucc : (create_client env ⟨"OpenAI", sel⟩ "OpenAI").1.success
              = false := by rw [create_client_success]; exact hun
          cases hL : provider_available env "Local AI (Ollama)" with
          | true =>
            have hpL : p = "Local AI (Ollama)" := by
              simp [firstAvailable, hL] at hp; exact hp.symm
            subst hpL
            simp [get_working_client, hsucc, gwcLoop, providerOrder,
              create_client_local, create_client_openai, local_pa, openai_pa, hL, hun]
          | false =>
            cases hG : provider_available env "Google AI" with
            | true =>
              have hpG : p = "Google AI" := by
                simp [firstAvailable, hL, hG] at hp; exact hp.symm
              subst hpG
              simp [get_working_client, hsucc, gwcLoop, providerOrder,
                create_client_local, create_client_google, create_client_openai,
                local_pa, google_pa, openai_pa, hL, hG, hun]
            | false =>
              exfalso
              simp [firstAvailable, hL, hG] at hp
        · intro hun hnone
          have hsucc : (create_client env ⟨"OpenAI", sel⟩ "OpenAI").1.success
              = false := by rw [create_client_success]; exact hun
          have hL : provider_available env "Local AI (Ollama)" = false :=
            firstAvailable_none env _ hnone _ (by simp)
          have hG : provider_available env "Google AI" = false :=
            firstAvailable_none env _ hnone _ (by simp)
          simp [get_working_client, hsucc, gwcLoop, providerOrder, lastTried,
            create_client_local, create_client_google, create_client_openai,
            local_pa, google_pa, openai_pa, hL, hG, hun, local_keeps_provider]
      · have hneL : ¬ ("Local AI (Ollama)" = cur) := fun h => hLp h.symm
        have hneG : ¬ ("Google AI" = cur) := fun h => hGp h.symm
        have hneO : ¬ ("OpenAI" = cur) := fun h => hOp h.symm
        have hfL : ("Local AI (Ollama)" != cur) = true := by
          simp [bne_iff_ne]; exact hneL
        have hfG : ("Google AI" != cur) = true := by
          simp [bne_iff_ne]; exact hneG
        have hfO : ("OpenAI" != cur) = true := by
          simp [bne_iff_ne]; exact hneO
        have hfilter : providerOrder.filter (fun x => x != cur) = providerOrder := by
          simp [providerOrder, List.filter, hfL, hfG, hfO]
        rw [hfilter]
        have hpaCur : provider_available env cur = false := by
          simp [provider_available, hLp, hGp, hOp]
        have hsucc : (create_client env ⟨cur, sel⟩ cur).1.success = false := by
          rw [create_client_success]; exact hpaCur
        have hred := create_client_unknown env ⟨cur, sel⟩ cur hLp hGp hOp
        refine ⟨?_, ?_, ?_⟩
        · intro havail
          rw [hpaCur] at havail
          exact absurd havail (by simp)
        · intro _ p hp
          cases hL : provider_available env "Local AI (Ollama)" with
          | true =>
            have hpL : p = "Local AI (Ollama)" := by
              simp [firstAvailable, providerOrder, hL] at hp; exact hp.symm
            subst hpL
            simp [get_working_client, hsucc, gwcLoop, providerOrder, hred,
              create_client_local, local_pa, hL, hneL, hneG, hneO,
              create_fallback_client]
          | false =>
            cases hG : provider_available env "Google AI" with
            | true =>
              have hpG : p = "Google AI" := by
                simp [firstAvailable, providerOrder, hL, hG] at hp; exact hp.symm
              subst hpG
              simp [get_working_client, hsucc, gwcLoop, providerOrder, hred,
                create_client_local, create_client_google, local_pa, google_pa,
                hL, hG, hneL, hneG, hneO, create_fallback_client]
            | false =>
              cases hO : provider_available env "OpenAI" with
              | true =>
                have hpO : p = "OpenAI" := by
                  simp [firstAvailable, providerOrder, hL, hG, hO] at hp
                  exact hp.symm
                subst hpO
                simp [get_working_client, hsucc, gwcLoop, providerOrder, hred,
                  create_client_local, create_client_google, create_client_openai,
                  local_pa, google_pa, openai_pa, hL, hG, hO, hneL, hneG, hneO,
                  create_fallback_client]
              | false =>
                exfalso
                simp [firstAvailable, providerOrder, hL, hG, hO] at hp
        · intro _ hnone
          have hL : provider_available env "Local AI (Ollama)" = false :=
            firstAvailable_none env _ hnone _ (by simp [providerOrder])
          have hG : provider_available env "Google AI" = false :=
            firstAvailable_none env _ hnone _ (by simp [providerOrder])
          have hO : provider_available env "OpenAI" = false :=
            firstAvailable_none env _ hnone _ (by simp [providerOrder])
          have hlast : lastTried cur = "OpenAI" := by
            simp [lastTried, hOp]
          rw [hlast]
          simp [get_working_client, hsucc, gwcLoop, providerOrder, hred,
            create_client_local, create_client_google, create_client_openai,
            local_pa, google_pa, openai_pa, hL, hG, hO, hneL, hneG, hneO,
            local_keeps_provider, create_fallback_client]

/-! ## C5: failover order of get_working_client -/

/-- C5, confirmed. get_working_client first tries the currently
selected provider and returns its client on success; when it fails, the
remaining providers are tried in the fixed order
["Local AI (Ollama)", "Google AI", "OpenAI"] skipping the one already
tried, and the first available provider's client is returned with
success=true (in particular, when exactly one other provider is
available the result is bound to it — the witness exercises this); when
every provider fails the result is the error (mock) client of the last
attempted provider with success=false. -/
theorem claim_C5_failover_order :
    ∀ (env : FactoryEnv) (s : Session),
      (provider_available env s.ai_provider = true →
        (get_working_client env s).1 = (create_client env s s.ai_provider).1
        ∧ ((get_working_client env s).1).success = true)
      ∧ (provider_available env s.ai_provider = false →
          ∀ p, firstAvailable env (providerOrder.filter (fun x => x != s.ai_provider))
              = some p →
            (get_working_client env s).1 = (create_client env s p).1
            ∧ ((get_working_client env s).1).success = true)
      ∧ (provider_available env s.ai_provider = false →
          firstAvailable env (providerOrder.filter (fun x => x != s.ai_provider)) = none →
            (get_working_client env s).1
              = (create_client env s (lastTried s.ai_provider)).1
            ∧ ((get_working_client env s).1).success = false
            ∧ ∃ m, ((get_working_client env s).1).client = Client.mock m) := by
  intro env s
  obtain ⟨h1, h2, h3⟩ := gwc_main env s
  refine ⟨?_, ?_, ?_⟩
  · intro hav
    have heq := h1 hav
    refine ⟨by rw [heq], ?_⟩
    rw [heq, create_client_success]
    exact hav
  · intro hun p hp
    obtain ⟨e1, _⟩ := h2 hun p hp
    refine ⟨e1, ?_⟩
    rw [e1, create_client_success]
    exact firstAvailable_avail env _ p hp
  · intro hun hnone
    obtain ⟨e1, _⟩ := h3 hun hnone
    have hfail : ((create_client env s (lastTried s.ai_provider)).1).success = false := by
      rw [create_client_success]
      exact firstAvailable_none env _ hnone _ (lastTried_mem_filter s.ai_provider)
    refine ⟨e1, by rw [e1]; exact hfail, ?_⟩
    obtain ⟨m, hm, _, _⟩ := create_client_failure_mock env s (lastTried s.ai_provider) hfail
    exact ⟨m, by rw [e1]; exact hm⟩

/-- C5 witness: the theorem applied to a session preferring the
(unavailable) Google provider in an environment where exactly the local
provider is available — the failover binds to Local. -/
theorem claim_C5_witness :
    provider_available envLocalOnly sessGoogle.ai_provider = false
    ∧ firstAvailable envLocalOnly
        (providerOrder.filter (fun x => x != sessGoogle.ai_provider))
        = some "Local AI (Ollama)"
    ∧ (get_working_client envLocalOnly sessGoogle).1
        = (create_client envLocalOnly sessGoogle "Local AI (Ollama)").1
    ∧ ((get_working_client envLocalOnly sessGoogle).1).success = true := by
  have h := (claim_C5_failover_order envLocalOnly sessGoogle).2.1 rfl
    "Local AI (Ollama)" rfl
  exact ⟨rfl, rfl, h.1, h.2⟩

/-! ## C10: get_working_client leaves the provider selection alone
except on a successful failover -/

/-- C10, confirmed. The stored provider selection is unchanged whenever
the preferred provider succeeds and whenever the overall call fails;
and whenever the selection did change, the call succeeded after the
preferred provider failed, and the returned client is the one
constructed for the newly selected provider. -/
theorem claim_C10_provider_frame :
    ∀ (env : FactoryEnv) (s : Session),
      (provider_available env s.ai_provider = true →
        ((get_working_client env s).2).ai_provider = s.ai_provider)
      ∧ (((get_working_client env s).1).success = false →
        ((get_working_client env s).2).ai_provider = s.ai_provider)
      ∧ (((get_working_client env s).2).ai_provider ≠ s.ai_provider →
          ((get_working_client env s).1).success = true
          ∧ provider_available env s.ai_provider = false
          ∧ (get_working_client env s).1
              = (create_client env s (((get_working_client env s).2).ai_provider)).1) := by
  intro env s
  obtain ⟨h1, h2, h3⟩ := gwc_main env s
  refine ⟨?_, ?_, ?_⟩
  · intro hav
    rw [h1 hav]
    exact create_client_keeps_provider env s s.ai_provider
  · intro hfail
    by_cases hav : provider_available env s.ai_provider = true
    · exfalso
      rw [h1 hav, create_client_success, hav] at hfail
      exact Bool.noConfusion hfail
    · rw [Bool.not_eq_true] at hav
      cases hfa : firstAvailable env (providerOrder.filter (fun x => x != s.ai_provider)) with
      | some p =>
        exfalso
        obtain ⟨e1, _⟩ := h2 hav p hfa
        rw [e1, create_client_success, firstAvailable_avail env _ p hfa] at hfail
        exact Bool.noConfusion hfail
      | none => exact (h3 hav hfa).2
  · intro hneq
    by_cases hav : provider_available env s.ai_provider = true
    · exfalso
      rw [h1 hav] at hneq
      exact hneq (create_client_keeps_provider env s s.ai_provider)
    · rw [Bool.not_eq_true] at hav
      cases hfa : firstAvailable env (providerOrder.filter (fun x => x != s.ai_provider)) with
      | none =>
        exfalso
        exact hneq (h3 hav hfa).2
      | some p =>
        obtain ⟨e1, e2⟩ := h2 hav p hfa
        refine ⟨?_, hav, ?_⟩
        · rw [e1, create_client_success]
          exact firstAvailable_avail env _ p hfa
        · rw [e2]
          exact e1

/-- C10 witness: with every provider failing and OpenAI selected, the
call reports failure and the stored selection is untouched. -/
theorem claim_C10_witness :
    ((get_working_client envAllFail sessOpenAI).1).success = false
    ∧ ((get_working_client envAllFail sessOpenAI).2).ai_provider
        = sessOpenAI.ai_provider :=
  ⟨rfl, (claim_C10_provider_frame envAllFail sessOpenAI).2.1 rfl⟩

end AILearn
